import Mathlib

/-!
Verification of `enpassreadercli` (src/enpassreadercli/enpassreadercli.py)
against its natural-language specification.

The script is a linear CLI flow: parse arguments, configure logging, open an
Enpass database through the external `enpassreaderlib` collaborator, dispatch
one of four retrieval modes, print, and exit.  We embed that flow shallowly:

* the external database handle (`EnpassDB`) is abstracted as its observable
  interface — a list of entries (`enpass.entries`) and a lookup function
  (`enpass.get_entry`);
* effects are made explicit: the run's stdout lines, the messages passed to
  `LOGGER.error`, and how the process terminates (a `SystemExit` code or an
  uncaught Python exception);
* environment interactions (`os.environ`, the filesystem, `json.loads`
  success, the interactive prompt) are inputs to the embedded functions.
-/

namespace EnpassReaderCli

/-- An Enpass entry as observed by this script: a title and a password. -/
structure Entry where
  title : String
  password : String
  deriving DecidableEq, Repr

/-- The opened database handle, abstracted to the two members the script
uses: `enpass.entries` (enumeration) and `enpass.get_entry` (lookup). -/
structure EnpassDB where
  entries : List Entry
  get_entry : String → Option Entry

/-- The retrieval mode selected by the mutually exclusive required group
`-g --get`, `-e --enumerate`, `-s --search`, `-f --fuzzy-search`.
`get` carries the title string given to `--get` (`args.entry`). -/
inductive Mode where
  | get (title : String)
  | enumerate
  | search
  | fuzzySearch
  deriving DecidableEq, Repr

/-- The result of the interactive `prompt` call in search / fuzzy-search
mode: either the text the user entered, or a `KeyboardInterrupt`. -/
inductive PromptResult where
  | text (s : String)
  | interrupted
  deriving DecidableEq, Repr

/-- How a run of the script terminates: `raise SystemExit(code)`, or an
uncaught Python exception of the given class propagating out of `main`. -/
inductive Termination where
  | exit (code : Nat)
  | uncaught (exceptionClass : String)
  deriving DecidableEq, Repr

/-- The observable outcome of a run: lines printed to stdout, messages passed
to `LOGGER.error`, and the termination. -/
structure RunResult where
  stdoutLines : List String
  loggedErrors : List String
  termination : Termination
  deriving DecidableEq, Repr

/-- The message logged at lines 199-201 when `EnpassDB(...)` raises
`EnpassDatabaseError`. -/
def dbOpenErrorMessage : String :=
  "Could not read or decrypt the database. Please validate that the path provided is a valid enpass database, and that the provided password and optionally key file are correct."

/-- The message logged at line 217 when `enpass.get_entry` returns a falsy
entry: `No password entry found with title of "<title>".` -/
def noEntryMessage (title : String) : String :=
  "No password entry found with title of \"" ++ title ++ "\"."

/-- The line printed for an entry in enumerate mode (line 205):
`<title>: <password>`. -/
def entryLine (e : Entry) : String :=
  e.title ++ ": " ++ e.password

/-- Lines 215-220 of `main`: once `entry_title` holds a value, look it up
with `enpass.get_entry`; a falsy result logs an error and exits 1, otherwise
the entry's password is printed and the script exits 0. -/
def lookupAndPrint (enpass : EnpassDB) (entry_title : String) : RunResult :=
  match enpass.get_entry entry_title with
  | none => ⟨[], [noEntryMessage entry_title], .exit 1⟩
  | some entry => ⟨[entry.password], [], .exit 0⟩

/-- Lines 189-220 of `main`, after logging is configured.

`openResult` is the outcome of `EnpassDB(args.path, args.password,
args.key_file)`: `none` when the constructor raises `EnpassDatabaseError`
(caught at line 198, logging `dbOpenErrorMessage` and raising
`SystemExit(1)`), `some enpass` otherwise.

The dispatch mirrors the Python statement by statement:

* `if args.list:` — the `for` loop over `enpass.entries` has
  `raise SystemExit(0)` in its body (line 206), so a non-empty database
  prints only the first entry's line before exiting 0, and an empty
  database falls through the loop to the code below;
* `if args.entry:` — a truthy (non-empty) `--get` title is assigned to
  `entry_title`; an empty one leaves it unassigned;
* `elif args.search or args.fuzzy:` — the prompt either supplies
  `entry_title` or raises `KeyboardInterrupt`, caught as `SystemExit(0)`;
* line 215 then evaluates `entry_title`; when no branch assigned it, Python
  raises `UnboundLocalError`. -/
def mainRun (openResult : Option EnpassDB) (mode : Mode)
    (promptResult : PromptResult) : RunResult :=
  match openResult with
  | none => ⟨[], [dbOpenErrorMessage], .exit 1⟩
  | some enpass =>
    match mode with
    | .enumerate =>
      match enpass.entries with
      | [] => ⟨[], [], .uncaught "UnboundLocalError"⟩
      | e :: _ => ⟨[entryLine e], [], .exit 0⟩
    | .get t =>
      if t ≠ "" then lookupAndPrint enpass t
      else ⟨[], [], .uncaught "UnboundLocalError"⟩
    | .search =>
      match promptResult with
      | .interrupted => ⟨[], [], .exit 0⟩
      | .text t => lookupAndPrint enpass t
    | .fuzzySearch =>
      match promptResult with
      | .interrupted => ⟨[], [], .exit 0⟩
      | .text t => lookupAndPrint enpass t

/-- How `setup_logging` (lines 151-177) left the logging system: either
`logging.config.dictConfig` was applied to the parsed contents of the config
file, or `coloredlogs.install` was called with the upper-cased level. -/
inductive LogConfig where
  | dictConfigFrom (fileContents : String)
  | coloredAtLevel (upperLevel : String)
  deriving DecidableEq, Repr

/-- The outcome of `setup_logging`: logging configured and control returned,
`print` of a message followed by `raise SystemExit(1)` (the `except
ValueError` branch, lines 173-175), or an uncaught exception (opening a
missing file raises `FileNotFoundError`, which is not a `ValueError` and so
escapes the handler). -/
inductive SetupResult where
  | configured (c : LogConfig)
  | printAndExitOne (message : String)
  | fileError
  deriving DecidableEq, Repr

/-- Lines 151-177: `setup_logging(level, config_file)`.

Environment inputs: `fs` maps a path to the contents `open(path).read()`
would return (`none` when no file exists there, in which case `open` raises
`FileNotFoundError`), and `jsonOk` tells whether `json.loads` accepts given
contents (raising `ValueError` otherwise).

A truthy (non-empty) `config_file` selects the file branch; only
`ValueError` is caught there.  Otherwise `coloredlogs.install` runs with
`level.upper()`. -/
def setup_logging (level : String) (config_file : String)
    (fs : String → Option String) (jsonOk : String → Bool) : SetupResult :=
  if config_file ≠ "" then
    match fs config_file with
    | none => .fileError
    | some contents =>
      if jsonOk contents then .configured (.dictConfigFrom contents)
      else .printAndExitOne
        ("File \"" ++ config_file ++ "\" is not valid json, cannot continue.")
  else
    .configured (.coloredAtLevel level.toUpper)

/-- Lines 187-220 of `main` as one run: `setup_logging(args.log_level,
args.logger_config)` runs first; if it raises `SystemExit(1)` the database
is never opened and no retrieval mode runs; if it raises an uncaught
exception the run dies there; otherwise `mainRun` takes over. -/
def fullMain (log_level logger_config : String)
    (fs : String → Option String) (jsonOk : String → Bool)
    (openResult : Option EnpassDB) (mode : Mode)
    (promptResult : PromptResult) : RunResult :=
  match setup_logging log_level logger_config fs jsonOk with
  | .printAndExitOne msg => ⟨[msg], [], .exit 1⟩
  | .fileError => ⟨[], [], .uncaught "FileNotFoundError"⟩
  | .configured _ => mainRun openResult mode promptResult

/-- Python truthiness of an optional string (argparse defaults are `None` or
strings): `None` and the empty string are falsy. -/
def optTruthy : Option String → Bool
  | none => false
  | some s => s ≠ ""

/-- The `(default, required)` pair an argparse action ends up with after
`DefaultVariable.__init__` (lines 68-76): when the incoming `default` is
falsy and a `variable` name is given, the environment value of `variable`
(if present) becomes the default; then a required flag with a truthy default
stops being required. -/
structure ActionConfig where
  default : Option String
  required : Bool
  deriving DecidableEq, Repr

/-- Lines 68-76: `DefaultVariable.__init__(variable, required, default)`,
with the Python parameter `variable` rendered as `envVar`.  `env` is
`os.environ` restricted to lookups (`variable in os.environ` /
`os.environ[variable]`). -/
def defaultVariableInit (envVar : String) (env : String → Option String)
    (required : Bool) (dflt : Option String) : ActionConfig :=
  let dflt :=
    if !(optTruthy dflt) && envVar ≠ "" then
      match env envVar with
      | some v => some v
      | none => dflt
    else dflt
  let required := if required && optTruthy dflt then false else required
  ⟨dflt, required⟩

/-- Argparse's value resolution for a flag using this action: an explicitly
supplied command-line value is stored by `__call__` (lines 78-79, a plain
`setattr`); an absent flag keeps the action's default. -/
def resolveArg (cfg : ActionConfig) (cliValue : Option String) : Option String :=
  match cliValue with
  | some v => some v
  | none => cfg.default

/-- C1: the claim says enumerate mode prints one `<title>: <password>` line
per stored entry, covering all entries, before exiting 0.  The code has
`raise SystemExit(0)` inside the `for` loop body (line 206), so on a
database with two entries only the first entry's line is printed before the
exit: the claim fails on the code as written, while the option's own help
text ("List all the passwords in the database.") states the claim's intent. -/
theorem c1_enumerate_prints_only_first_entry :
    mainRun (some ⟨[⟨"alpha", "pa"⟩, ⟨"beta", "pb"⟩], fun _ => none⟩)
        .enumerate .interrupted = ⟨["alpha: pa"], [], .exit 0⟩ ∧
    ([⟨"alpha", "pa"⟩, ⟨"beta", "pb"⟩] : List Entry).length = 2 :=
  ⟨rfl, rfl⟩

/-- C2: whenever opening the database fails (the `EnpassDB` constructor
raises `EnpassDatabaseError`), the run logs the user-facing error message
and exits with code 1, printing nothing and regardless of which retrieval
mode was selected. -/
theorem c2_db_open_failure_exits_one (mode : Mode) (promptResult : PromptResult) :
    mainRun none mode promptResult = ⟨[], [dbOpenErrorMessage], .exit 1⟩ :=
  rfl

/-- C3: in direct-get mode with a (non-empty) title for which
`enpass.get_entry` returns no entry, the run logs an error naming that
title and exits with code 1. -/
theorem c3_get_missing_title_exits_one (enpass : EnpassDB) (t : String)
    (ht : t ≠ "") (hnone : enpass.get_entry t = none) (pr : PromptResult) :
    mainRun (some enpass) (.get t) pr = ⟨[], [noEntryMessage t], .exit 1⟩ := by
  simp [mainRun, ht, lookupAndPrint, hnone]

/-- C3 witness: a concrete empty database and the title "missing". -/
theorem c3_get_missing_title_exits_one_witness :
    mainRun (some ⟨[], fun _ => none⟩) (.get "missing") .interrupted =
      ⟨[], [noEntryMessage "missing"], .exit 1⟩ :=
  c3_get_missing_title_exits_one ⟨[], fun _ => none⟩ "missing" (by decide) rfl
    .interrupted

/-- C4: in direct-get mode with a (non-empty) title for which
`enpass.get_entry` returns an entry, the run prints exactly that entry's
password — nothing else on stdout, no logged errors — and exits with
code 0. -/
theorem c4_get_found_prints_password (enpass : EnpassDB) (t : String)
    (e : Entry) (ht : t ≠ "") (hsome : enpass.get_entry t = some e)
    (pr : PromptResult) :
    mainRun (some enpass) (.get t) pr = ⟨[e.password], [], .exit 0⟩ := by
  simp [mainRun, ht, lookupAndPrint, hsome]

/-- C4 witness: a concrete database whose lookup finds "foo". -/
theorem c4_get_found_prints_password_witness :
    mainRun
        (some ⟨[⟨"foo", "secret"⟩],
          fun s => if s = "foo" then some ⟨"foo", "secret"⟩ else none⟩)
        (.get "foo") .interrupted = ⟨["secret"], [], .exit 0⟩ :=
  c4_get_found_prints_password
    ⟨[⟨"foo", "secret"⟩],
      fun s => if s = "foo" then some ⟨"foo", "secret"⟩ else none⟩
    "foo" ⟨"foo", "secret"⟩ (by decide) (by decide) .interrupted

/-- C5: in interactive search and fuzzy-search modes, a `KeyboardInterrupt`
at the prompt terminates the run with exit code 0 (nothing printed, nothing
logged). -/
theorem c5_prompt_interrupt_exits_zero (enpass : EnpassDB) :
    mainRun (some enpass) .search .interrupted = ⟨[], [], .exit 0⟩ ∧
    mainRun (some enpass) .fuzzySearch .interrupted = ⟨[], [], .exit 0⟩ :=
  ⟨rfl, rfl⟩

/-- C6: when a log-config file is given and its contents are not valid
JSON, `setup_logging` prints a message naming the file and raises
`SystemExit(1)`; the run ends there with that exact message, independently
of the database-open outcome and of the selected mode — the database is
never opened and no retrieval runs. -/
theorem c6_invalid_json_config_exits_one (log_level logger_config : String)
    (fs : String → Option String) (jsonOk : String → Bool) (contents : String)
    (hcf : logger_config ≠ "") (hfs : fs logger_config = some contents)
    (hjson : jsonOk contents = false)
    (openResult : Option EnpassDB) (mode : Mode) (pr : PromptResult) :
    fullMain log_level logger_config fs jsonOk openResult mode pr =
      ⟨["File \"" ++ logger_config ++ "\" is not valid json, cannot continue."],
        [], .exit 1⟩ := by
  simp [fullMain, setup_logging, hcf, hfs, hjson]

/-- C6 witness: a concrete config path holding non-JSON contents, with a
database that would otherwise open. -/
theorem c6_invalid_json_config_exits_one_witness :
    fullMain "info" "logcfg.json"
        (fun s => if s = "logcfg.json" then some "not json" else none)
        (fun _ => false) (some ⟨[], fun _ => none⟩) .enumerate .interrupted =
      ⟨["File \"logcfg.json\" is not valid json, cannot continue."],
        [], .exit 1⟩ :=
  c6_invalid_json_config_exits_one "info" "logcfg.json"
    (fun s => if s = "logcfg.json" then some "not json" else none)
    (fun _ => false) "not json" (by decide) (by decide) rfl
    (some ⟨[], fun _ => none⟩) .enumerate .interrupted

/-- C7: for a flag wired through `DefaultVariable` with environment
variable `envVar`: a required flag with no static default (the
`--database-path` and `--database-password` wiring) picks up a non-empty
environment value as its default when the flag is absent, and stops being
required; the `--database-key-file` wiring (not required, static default
the empty string) likewise picks up the environment value; and an
explicitly supplied command-line value always overrides the environment
default. -/
theorem c7_default_variable_env_fallback (envVar v : String)
    (env : String → Option String) (hvar : envVar ≠ "")
    (hv : env envVar = some v) (hne : v ≠ "") :
    resolveArg (defaultVariableInit envVar env true none) none = some v ∧
    (defaultVariableInit envVar env true none).required = false ∧
    resolveArg (defaultVariableInit envVar env false (some "")) none = some v ∧
    ∀ c : String,
      resolveArg (defaultVariableInit envVar env true none) (some c) = some c := by
  refine ⟨?_, ?_, ?_, fun c => rfl⟩ <;>
    simp [defaultVariableInit, resolveArg, optTruthy, hvar, hv, hne]

/-- C7 witness: the `ENPASS_DB_PATH` wiring with a concrete environment. -/
theorem c7_default_variable_env_fallback_witness :
    resolveArg
        (defaultVariableInit "ENPASS_DB_PATH"
          (fun s => if s = "ENPASS_DB_PATH" then some "/vault/db" else none)
          true none) none = some "/vault/db" ∧
    (defaultVariableInit "ENPASS_DB_PATH"
        (fun s => if s = "ENPASS_DB_PATH" then some "/vault/db" else none)
        true none).required = false ∧
    resolveArg
        (defaultVariableInit "ENPASS_DB_PATH"
          (fun s => if s = "ENPASS_DB_PATH" then some "/vault/db" else none)
          false (some "")) none = some "/vault/db" ∧
    ∀ c : String,
      resolveArg
        (defaultVariableInit "ENPASS_DB_PATH"
          (fun s => if s = "ENPASS_DB_PATH" then some "/vault/db" else none)
          true none) (some c) = some c :=
  c7_default_variable_env_fallback "ENPASS_DB_PATH" "/vault/db"
    (fun s => if s = "ENPASS_DB_PATH" then some "/vault/db" else none)
    (by decide) (by decide) (by decide)

/-- C8: with a successfully opened database, two runs never assign
`entry_title` and reach line 215 with it unbound, raising an uncaught
`UnboundLocalError`: enumerate mode over an empty database (the loop body
never executes), and direct-get mode with an empty-string title (the
truthiness test on `args.entry` fails and search and fuzzy are off). -/
theorem c8_unassigned_title_uncaught_error (g : String → Option Entry)
    (enpass : EnpassDB) (pr : PromptResult) :
    mainRun (some ⟨[], g⟩) .enumerate pr =
      ⟨[], [], .uncaught "UnboundLocalError"⟩ ∧
    mainRun (some enpass) (.get "") pr =
      ⟨[], [], .uncaught "UnboundLocalError"⟩ := by
  constructor
  · rfl
  · simp [mainRun]

/-- C9: when a log-config path is given but no file exists there, the
`open` call raises `FileNotFoundError`, which the `except ValueError`
handler does not catch: `setup_logging` neither configures logging nor
exits with code 1, and the whole run dies with the uncaught exception. -/
theorem c9_missing_config_file_uncaught (log_level logger_config : String)
    (fs : String → Option String) (jsonOk : String → Bool)
    (hcf : logger_config ≠ "") (hfs : fs logger_config = none)
    (openResult : Option EnpassDB) (mode : Mode) (pr : PromptResult) :
    setup_logging log_level logger_config fs jsonOk = .fileError ∧
    fullMain log_level logger_config fs jsonOk openResult mode pr =
      ⟨[], [], .uncaught "FileNotFoundError"⟩ := by
  have h : setup_logging log_level logger_config fs jsonOk = .fileError := by
    simp [setup_logging, hcf, hfs]
  exact ⟨h, by simp [fullMain, h]⟩

/-- C9 witness: a concrete config path with an empty filesystem. -/
theorem c9_missing_config_file_uncaught_witness :
    setup_logging "info" "absent.json" (fun _ => none) (fun _ => true) =
      .fileError ∧
    fullMain "info" "absent.json" (fun _ => none) (fun _ => true)
        (some ⟨[], fun _ => none⟩) .enumerate .interrupted =
      ⟨[], [], .uncaught "FileNotFoundError"⟩ :=
  c9_missing_config_file_uncaught "info" "absent.json" (fun _ => none)
    (fun _ => true) (by decide) rfl (some ⟨[], fun _ => none⟩) .enumerate
    .interrupted

/-- C10: when a non-empty log-config path is given, the log level is never
consulted: two `setup_logging` calls differing only in the level configure
logging identically (same `SetupResult`, whatever the filesystem and JSON
outcomes). -/
theorem c10_log_level_irrelevant_with_config_file (l1 l2 logger_config : String)
    (fs : String → Option String) (jsonOk : String → Bool)
    (hcf : logger_config ≠ "") :
    setup_logging l1 logger_config fs jsonOk =
      setup_logging l2 logger_config fs jsonOk := by
  simp [setup_logging, hcf]

/-- C10 witness: levels "debug" and "critical" with a concrete config
path. -/
theorem c10_log_level_irrelevant_with_config_file_witness :
    setup_logging "debug" "cfg.json"
        (fun s => if s = "cfg.json" then some "contents" else none)
        (fun _ => true) =
      setup_logging "critical" "cfg.json"
        (fun s => if s = "cfg.json" then some "contents" else none)
        (fun _ => true) :=
  c10_log_level_irrelevant_with_config_file "debug" "critical" "cfg.json"
    (fun s => if s = "cfg.json" then some "contents" else none)
    (fun _ => true) (by decide)

end EnpassReaderCli
